import Mathlib

/-!
Verification of the indicator-computation engine of the StockTracker
repository (`utils/technical_indicators.py`).

The Python code operates on pandas Series of IEEE-754 doubles.  The shallow
embedding below models a numeric cell as `FVal`: an exact rational together
with the three IEEE special values that actually arise in this code
(`nan`, `+inf`, `-inf`).  The arithmetic on `FVal` mirrors IEEE semantics
(NaN propagation, signed division by zero, `x/inf = 0`), with rounding
ignored — all claims under scrutiny are formula-level, not bit-level.
`Option ℝ` is used for the one place a square root appears (Bollinger
standard deviation), `none` standing for NaN.

Fallible pandas operations (`.iloc[0]` on an empty frame, in-place
assignment into an empty Series) are modelled with `Except PyErr`.
-/

namespace StockTracker

/-- One OHLCV bar, the data model's `Bar` record.  Exact rationals stand in
for the doubles of the source. -/
structure Bar where
  op : ℚ
  high : ℚ
  low : ℚ
  close : ℚ
  volume : ℚ
  deriving DecidableEq, Repr

instance : Inhabited Bar := ⟨⟨0, 0, 0, 0, 0⟩⟩

/-- An IEEE-754-style numeric cell: NaN, the two infinities, or a finite
(here: exact rational) value. -/
inductive FVal where
  | nan  : FVal
  | pinf : FVal
  | ninf : FVal
  | fin  : ℚ → FVal
  deriving DecidableEq, Repr

namespace FVal

/-- IEEE negation. -/
def fneg : FVal → FVal
  | nan => nan
  | pinf => ninf
  | ninf => pinf
  | fin a => fin (-a)

/-- IEEE addition: NaN propagates, `+inf + -inf = NaN`. -/
def fadd : FVal → FVal → FVal
  | nan, _ => nan
  | _, nan => nan
  | pinf, ninf => nan
  | ninf, pinf => nan
  | pinf, _ => pinf
  | _, pinf => pinf
  | ninf, _ => ninf
  | _, ninf => ninf
  | fin a, fin b => fin (a + b)

/-- IEEE subtraction. -/
def fsub (x y : FVal) : FVal := fadd x (fneg y)

/-- IEEE multiplication: NaN propagates, `inf * 0 = NaN`. -/
def fmul : FVal → FVal → FVal
  | nan, _ => nan
  | _, nan => nan
  | pinf, pinf => pinf
  | pinf, ninf => ninf
  | ninf, pinf => ninf
  | ninf, ninf => pinf
  | pinf, fin b => if 0 < b then pinf else if b < 0 then ninf else nan
  | fin a, pinf => if 0 < a then pinf else if a < 0 then ninf else nan
  | ninf, fin b => if 0 < b then ninf else if b < 0 then pinf else nan
  | fin a, ninf => if 0 < a then ninf else if a < 0 then pinf else nan
  | fin a, fin b => fin (a * b)

/-- IEEE division: NaN propagates, `inf/inf = NaN`, `x/0` is a signed
infinity for `x ≠ 0` and NaN for `0/0`, `x/inf = 0`.  (Rationals have no
signed zero; a zero divisor is treated as `+0`, which is the only zero
pandas produces in this code.) -/
def fdiv : FVal → FVal → FVal
  | nan, _ => nan
  | _, nan => nan
  | pinf, pinf => nan
  | pinf, ninf => nan
  | ninf, pinf => nan
  | ninf, ninf => nan
  | pinf, fin b => if 0 ≤ b then pinf else ninf
  | ninf, fin b => if 0 ≤ b then ninf else pinf
  | fin _, pinf => fin 0
  | fin _, ninf => fin 0
  | fin a, fin b =>
      if b = 0 then (if 0 < a then pinf else if a < 0 then ninf else nan)
      else fin (a / b)

/-- IEEE `<` as a boolean: any comparison with NaN is false. -/
def flt : FVal → FVal → Bool
  | nan, _ => false
  | _, nan => false
  | pinf, _ => false
  | _, pinf => true
  | _, ninf => false
  | ninf, _ => true
  | fin a, fin b => decide (a < b)

/-- IEEE max of two non-NaN-propagating-free values; NaN propagates
(used only inside full rolling windows, as pandas does). -/
def fmax : FVal → FVal → FVal
  | nan, _ => nan
  | _, nan => nan
  | pinf, _ => pinf
  | _, pinf => pinf
  | ninf, x => x
  | x, ninf => x
  | fin a, fin b => fin (max a b)

/-- IEEE min, NaN propagating. -/
def fmin : FVal → FVal → FVal
  | nan, _ => nan
  | _, nan => nan
  | ninf, _ => ninf
  | _, ninf => ninf
  | pinf, x => x
  | x, pinf => x
  | fin a, fin b => fin (min a b)

end FVal

open FVal

/-- Sum of a list of cells (pandas' window sum): NaN in, NaN out. -/
def fsum (xs : List FVal) : FVal := xs.foldl fadd (fin 0)

/-- Minimum of a nonempty window (pandas' rolling-min kernel). -/
def fvalListMin : List FVal → FVal
  | [] => nan
  | x :: xs => xs.foldl fmin x

/-- Maximum of a nonempty window (pandas' rolling-max kernel). -/
def fvalListMax : List FVal → FVal
  | [] => nan
  | x :: xs => xs.foldl fmax x

/-- The trailing window of width `w` ending at index `i` (inclusive). -/
def windowSlice {α : Type _} (xs : List α) (w i : ℕ) : List α :=
  (xs.take (i + 1)).drop (i + 1 - w)

/-- `Series.rolling(window=w).mean()`: NaN while fewer than `w`
observations are available, else the arithmetic mean of the trailing
window (a window containing NaN yields NaN, as in pandas). -/
def rolling_mean (xs : List FVal) (w : ℕ) : List FVal :=
  (List.range xs.length).map fun i =>
    if i + 1 < w then nan
    else fdiv (fsum (windowSlice xs w i)) (fin w)

/-- `Series.rolling(window=w).min()`. -/
def rolling_min (xs : List FVal) (w : ℕ) : List FVal :=
  (List.range xs.length).map fun i =>
    if i + 1 < w then nan
    else fvalListMin (windowSlice xs w i)

/-- `Series.rolling(window=w).max()`. -/
def rolling_max (xs : List FVal) (w : ℕ) : List FVal :=
  (List.range xs.length).map fun i =>
    if i + 1 < w then nan
    else fvalListMax (windowSlice xs w i)

/-- `Series.rolling(window=w).std()` squared: the sample variance
(pandas' default `ddof=1`).  NaN while the window is short and for
`w < 2` (where the `w - ddof` denominator vanishes). -/
def rolling_var (xs : List FVal) (w : ℕ) : List FVal :=
  (List.range xs.length).map fun i =>
    if i + 1 < w ∨ w < 2 then nan
    else
      let s := windowSlice xs w i
      let m := fdiv (fsum s) (fin w)
      fdiv (fsum (s.map fun x => fmul (fsub x m) (fsub x m))) (fin ((w : ℚ) - 1))

/-- Square root of a cell, landing in `Option ℝ` (`none` = NaN). -/
noncomputable def fvalSqrt : FVal → Option ℝ
  | .fin q => some (Real.sqrt q)
  | _ => none

/-- `Series.rolling(window=w).std()` (sample standard deviation). -/
noncomputable def rolling_std (xs : List FVal) (w : ℕ) : List (Option ℝ) :=
  (rolling_var xs w).map fvalSqrt

/-- The recursion of `Series.ewm(span, adjust=False).mean()` after the
seed: `y[i] = α·x[i] + (1-α)·y[i-1]`. -/
def ewm_go (a : ℚ) (y : FVal) : List FVal → List FVal
  | [] => []
  | x :: rest =>
      let y2 := fadd (fmul (fin a) x) (fmul (fin (1 - a)) y)
      y2 :: ewm_go a y2 rest

/-- `Series.ewm(span=span, adjust=False).mean()` with `α = 2/(span+1)`,
seeded with the first observation.  (All call sites in the source feed it
NaN-free series.) -/
def ewm_mean (xs : List FVal) (span : ℕ) : List FVal :=
  match xs with
  | [] => []
  | x :: rest => x :: ewm_go (2 / ((span : ℚ) + 1)) x rest

/-- The `Close` column as a series of cells. -/
def closes (data : List Bar) : List FVal := data.map fun b => fin b.close

/-- The `High` column. -/
def highs (data : List Bar) : List FVal := data.map fun b => fin b.high

/-- The `Low` column. -/
def lows (data : List Bar) : List FVal := data.map fun b => fin b.low

/-- `Series.diff()`: first entry NaN, then consecutive differences. -/
def series_diff (xs : List FVal) : List FVal :=
  (List.range xs.length).map fun i =>
    if i = 0 then nan else fsub (xs.getD i nan) (xs.getD (i - 1) nan)

/-- `delta = data[column].diff()` of `calculate_rsi`. -/
def rsi_delta (data : List Bar) : List FVal := series_diff (closes data)

/-- `gain = delta.where(delta > 0, 0)`: a NaN delta compares false and is
replaced by 0, exactly as `Series.where` does. -/
def rsi_gain (data : List Bar) : List FVal :=
  (rsi_delta data).map fun d => if flt (fin 0) d then d else fin 0

/-- `loss = -delta.where(delta < 0, 0)`. -/
def rsi_loss (data : List Bar) : List FVal :=
  (rsi_delta data).map fun d => fneg (if flt d (fin 0) then d else fin 0)

/-- `avg_gain = gain.rolling(window=window).mean()`. -/
def rsi_avg_gain (data : List Bar) (window : ℕ) : List FVal :=
  rolling_mean (rsi_gain data) window

/-- `avg_loss = loss.rolling(window=window).mean()`. -/
def rsi_avg_loss (data : List Bar) (window : ℕ) : List FVal :=
  rolling_mean (rsi_loss data) window

/-- `calculate_rsi(data, window=14)`: `rs = avg_gain / avg_loss`,
`rsi = 100 - (100 / (1 + rs))`, elementwise over the series. -/
def calculate_rsi (data : List Bar) (window : ℕ := 14) : List FVal :=
  let rs := List.zipWith fdiv (rsi_avg_gain data window) (rsi_avg_loss data window)
  rs.map fun r => fsub (fin 100) (fdiv (fin 100) (fadd (fin 1) r))

/-- `calculate_macd(data, fast_period=12, slow_period=26, signal_period=9)`:
returns (macd line, signal line, histogram). -/
def calculate_macd (data : List Bar) (fast_period : ℕ := 12)
    (slow_period : ℕ := 26) (signal_period : ℕ := 9) :
    List FVal × List FVal × List FVal :=
  let fast_ema := ewm_mean (closes data) fast_period
  let slow_ema := ewm_mean (closes data) slow_period
  let macd_line := List.zipWith fsub fast_ema slow_ema
  let signal_line := ewm_mean macd_line signal_period
  let histogram := List.zipWith fsub macd_line signal_line
  (macd_line, signal_line, histogram)

/-- `low_min = data['Low'].rolling(window=k_period).min()`. -/
def stoch_low_min (data : List Bar) (k_period : ℕ) : List FVal :=
  rolling_min (lows data) k_period

/-- `high_max = data['High'].rolling(window=k_period).max()`. -/
def stoch_high_max (data : List Bar) (k_period : ℕ) : List FVal :=
  rolling_max (highs data) k_period

/-- `fast_k = 100 * ((data['Close'] - low_min) / (high_max - low_min))`. -/
def stochastic_fast_k (data : List Bar) (k_period : ℕ) : List FVal :=
  let num := List.zipWith fsub (closes data) (stoch_low_min data k_period)
  let den := List.zipWith fsub (stoch_high_max data k_period) (stoch_low_min data k_period)
  (List.zipWith fdiv num den).map (fmul (fin 100))

/-- `calculate_stochastic(data, k_period=14, d_period=3, smooth_k=3)`:
returns (%K, %D) — fast %K smoothed by `smooth_k`, then by `d_period`. -/
def calculate_stochastic (data : List Bar) (k_period : ℕ := 14)
    (d_period : ℕ := 3) (smooth_k : ℕ := 3) : List FVal × List FVal :=
  let k := rolling_mean (stochastic_fast_k data k_period) smooth_k
  let d := rolling_mean k d_period
  (k, d)

/-- Row-wise max with pandas' default `skipna=True`
(`ranges.max(axis=1)` of `calculate_atr`): NaN cells are dropped; the
max is NaN only when every cell is NaN. -/
def rowMaxSkipNaN (vs : List FVal) : FVal :=
  match vs.filter (fun v => v != FVal.nan) with
  | [] => FVal.nan
  | x :: rest => rest.foldl fmax x

/-- The true-range series of `calculate_atr`: `High - Low`,
`|High - Close.shift()|`, `|Low - Close.shift()|` (the shifted close is
NaN at index 0), combined by a NaN-skipping row max — so the first bar's
true range degrades to `High - Low`. -/
def true_range (data : List Bar) : List FVal :=
  (List.range data.length).map fun i =>
    let b := data.getD i default
    let high_low := fin (b.high - b.low)
    let high_close := if i = 0 then nan else fin |b.high - (data.getD (i - 1) default).close|
    let low_close := if i = 0 then nan else fin |b.low - (data.getD (i - 1) default).close|
    rowMaxSkipNaN [high_low, high_close, low_close]

/-- `calculate_atr(data, window=14)`. -/
def calculate_atr (data : List Bar) (window : ℕ := 14) : List FVal :=
  rolling_mean (true_range data) window

/-- A Python runtime fault surfaced by the pandas layer. -/
inductive PyErr where
  | indexError : PyErr
  deriving DecidableEq, Repr

/-- The body of the `for i in range(1, len(data))` loop of
`calculate_on_balance_volume`, unrolled as a recurrence on the index:
`obv[0] = 0`; a rising close adds the bar's volume, a falling close
subtracts it, an unchanged close carries the value forward. -/
def obv_at (data : List Bar) : ℕ → ℚ
  | 0 => 0
  | i + 1 =>
      let prev := obv_at data i
      let c := (data.getD (i + 1) default).close
      let p := (data.getD i default).close
      if p < c then prev + (data.getD (i + 1) default).volume
      else if c < p then prev - (data.getD (i + 1) default).volume
      else prev

/-- `calculate_on_balance_volume(data)`: the seed assignment
`obv.iloc[0] = 0` raises `IndexError` on an empty frame; otherwise the
loop fills the whole series. -/
def calculate_on_balance_volume (data : List Bar) : Except PyErr (List ℚ) :=
  if data.isEmpty then .error .indexError
  else .ok ((List.range data.length).map (obv_at data))

/-- `ma = data[column].rolling(window=window).mean()` of
`add_bollinger_bands` — the middle band. -/
def bollinger_middle (data : List Bar) (window : ℕ) : List FVal :=
  rolling_mean (closes data) window

/-- `upper_band = ma + (std * num_std)` of `add_bollinger_bands`,
landing in `Option ℝ` because of the square root in `std`. -/
noncomputable def bollinger_upper (data : List Bar) (window : ℕ) (num_std : ℚ) :
    List (Option ℝ) :=
  List.zipWith
    (fun m s => match m, s with
      | FVal.fin q, some r => some ((q : ℝ) + r * (num_std : ℝ))
      | _, _ => none)
    (bollinger_middle data window) (rolling_std (closes data) window)

/-- `lower_band = ma - (std * num_std)` of `add_bollinger_bands`. -/
noncomputable def bollinger_lower (data : List Bar) (window : ℕ) (num_std : ℚ) :
    List (Option ℝ) :=
  List.zipWith
    (fun m s => match m, s with
      | FVal.fin q, some r => some ((q : ℝ) - r * (num_std : ℝ))
      | _, _ => none)
    (bollinger_middle data window) (rolling_std (closes data) window)

/-- One plotly trace, abstracted to what the layout claims are about: its
legend name, the subplot row it is attached to, and the length of its `y`
sequence. -/
structure Trace where
  name : String
  row : ℕ
  yLen : ℕ
  deriving DecidableEq, Repr

/-- A plotly figure, abstracted to the subplot grid (`rows`), the
`row_heights` passed to `make_subplots`, and the ordered trace list. -/
structure Figure where
  rows : ℕ
  rowHeights : List ℚ
  traces : List Trace
  deriving DecidableEq, Repr

/-- `fig.add_trace(...)`. -/
def Figure.addTrace (fig : Figure) (t : Trace) : Figure :=
  { fig with traces := fig.traces ++ [t] }

/-- `make_subplots(rows=..., row_heights=...)` (single column). -/
def make_subplots (rows : ℕ) (row_heights : List ℚ) : Figure :=
  ⟨rows, row_heights, []⟩

/-- Modelled from plotly's documented `make_subplots` semantics:
`row_heights` are relative heights, normalized by their sum to give each
row's fraction of the vertical space. -/
def normalize_heights (hs : List ℚ) : List ℚ := hs.map (· / hs.sum)

/-- The rows of all traces of `fig` carrying legend name `nm`. -/
def rowsOfTrace (fig : Figure) (nm : String) : List ℕ :=
  (fig.traces.filter fun t => t.name == nm).map fun t => t.row

/-- `add_moving_average(fig, data, window, row=..)` with its default
name `f'{window}-day MA'`. -/
def add_moving_average (fig : Figure) (data : List Bar) (window : ℕ)
    (row : ℕ := 1) : Figure :=
  let ma := rolling_mean (closes data) window
  fig.addTrace ⟨toString window ++ "-day MA", row, ma.length⟩

/-- `add_exponential_moving_average(fig, data, window, row=..)`. -/
def add_exponential_moving_average (fig : Figure) (data : List Bar)
    (window : ℕ) (row : ℕ := 1) : Figure :=
  let ema := ewm_mean (closes data) window
  fig.addTrace ⟨toString window ++ "-day EMA", row, ema.length⟩

/-- `add_bollinger_bands(fig, data, window=20, num_std=2, row=..)`: five
traces — the middle band, the two invisible fill bands, and the two
visible dashed bands. -/
noncomputable def add_bollinger_bands (fig : Figure) (data : List Bar)
    (window : ℕ := 20) (num_std : ℚ := 2) (row : ℕ := 1) : Figure :=
  let ma := bollinger_middle data window
  let ub := bollinger_upper data window num_std
  let lb := bollinger_lower data window num_std
  let fig := fig.addTrace ⟨toString window ++ "-day MA", row, ma.length⟩
  let fig := fig.addTrace ⟨"Upper Band", row, ub.length⟩
  let fig := fig.addTrace ⟨"Lower Band", row, lb.length⟩
  let fig := fig.addTrace ⟨"Upper Band", row, ub.length⟩
  fig.addTrace ⟨"Lower Band", row, lb.length⟩

/-- `add_rsi(fig, data, window=14, row=..)`: the RSI trace goes in first;
the overbought/oversold/middle guide lines then read
`data['Date'].iloc[0]` and `iloc[-1]`, which raises `IndexError` on an
empty frame. -/
def add_rsi (fig : Figure) (data : List Bar) (window : ℕ := 14)
    (row : ℕ := 2) : Except PyErr Figure :=
  let rsi := calculate_rsi data window
  let fig := fig.addTrace ⟨"RSI (" ++ toString window ++ ")", row, rsi.length⟩
  if data.isEmpty then .error .indexError
  else
    let fig := fig.addTrace ⟨"Overbought", row, 2⟩
    let fig := fig.addTrace ⟨"Oversold", row, 2⟩
    .ok (fig.addTrace ⟨"Middle", row, 2⟩)

/-- `add_macd(fig, data, ..., row=..)`: MACD line, signal line and
histogram; no date indexing, so no fault on empty input. -/
def add_macd (fig : Figure) (data : List Bar) (fast_period : ℕ := 12)
    (slow_period : ℕ := 26) (signal_period : ℕ := 9) (row : ℕ := 3) : Figure :=
  match calculate_macd data fast_period slow_period signal_period with
  | (macd_line, signal_line, histogram) =>
    let fig := fig.addTrace ⟨"MACD", row, macd_line.length⟩
    let fig := fig.addTrace ⟨"Signal", row, signal_line.length⟩
    fig.addTrace ⟨"Histogram", row, histogram.length⟩

/-- `add_stochastic(fig, data, ..., row=..)`: %K and %D go in first; the
overbought/oversold guide lines index `data['Date'].iloc[0]`, raising on
an empty frame. -/
def add_stochastic (fig : Figure) (data : List Bar) (k_period : ℕ := 14)
    (d_period : ℕ := 3) (smooth_k : ℕ := 3) (row : ℕ := 4) :
    Except PyErr Figure :=
  match calculate_stochastic data k_period d_period smooth_k with
  | (k, d) =>
    let fig := fig.addTrace ⟨"%K", row, k.length⟩
    let fig := fig.addTrace ⟨"%D", row, d.length⟩
    if data.isEmpty then .error .indexError
    else
      let fig := fig.addTrace ⟨"Overbought", row, 2⟩
      .ok (fig.addTrace ⟨"Oversold", row, 2⟩)

/-- `add_atr(fig, data, window=14, row=..)`. -/
def add_atr (fig : Figure) (data : List Bar) (window : ℕ := 14)
    (row : ℕ := 5) : Figure :=
  let atr := calculate_atr data window
  fig.addTrace ⟨"ATR (" ++ toString window ++ ")", row, atr.length⟩

/-- `add_obv(fig, data, row=..)`: invokes the OBV calculator (which
raises on an empty frame) and adds the OBV trace plus its 20-span EMA
smoothing line. -/
def add_obv (fig : Figure) (data : List Bar) (row : ℕ := 6) :
    Except PyErr Figure :=
  match calculate_on_balance_volume data with
  | .error e => .error e
  | .ok obv =>
    let fig := fig.addTrace ⟨"OBV", row, obv.length⟩
    let obv_ema := ewm_mean (obv.map fin) 20
    .ok (fig.addTrace ⟨"OBV EMA (20)", row, obv_ema.length⟩)

/-- The subplot count of `create_technical_chart`: one for the price
panel plus one per oscillator present in the request (membership tests in
the source's fixed order rsi, macd, stoch, atr, obv). -/
def chart_subplot_count (indicators : List String) : ℕ :=
  1 + (if "rsi" ∈ indicators then 1 else 0)
    + (if "macd" ∈ indicators then 1 else 0)
    + (if "stoch" ∈ indicators then 1 else 0)
    + (if "atr" ∈ indicators then 1 else 0)
    + (if "obv" ∈ indicators then 1 else 0)

/-- The `heights` list of `create_technical_chart`: `[0.5]`, extended —
when there is more than one subplot — by the remaining `0.5` split evenly
across the indicator subplots. -/
def chart_heights (subplot_count : ℕ) : List ℚ :=
  if 1 < subplot_count then
    (1 / 2) :: List.replicate (subplot_count - 1) ((1 / 2) / ((subplot_count : ℚ) - 1))
  else [1 / 2]

/-- `create_technical_chart(data, indicators=None)`: defaults the request
to `['sma', 'ema', 'bollinger']`, builds the subplot grid, adds the
candlestick and volume traces, the overlays, then each oscillator in the
source's fixed order while incrementing `current_row`.  Exceptions from
the pandas layer propagate out as `Except.error`. -/
noncomputable def create_technical_chart (data : List Bar)
    (indicators? : Option (List String) := none) : Except PyErr Figure :=
  let indicators := indicators?.getD ["sma", "ema", "bollinger"]
  let subplot_count := chart_subplot_count indicators
  let heights := chart_heights subplot_count
  let fig := make_subplots subplot_count heights
  let fig := fig.addTrace ⟨"Price", 1, data.length⟩
  let fig := fig.addTrace ⟨"Volume", 1, data.length⟩
  let fig := if "sma" ∈ indicators then
      add_moving_average (add_moving_average fig data 50 1) data 200 1
    else fig
  let fig := if "ema" ∈ indicators then
      add_exponential_moving_average fig data 20 1
    else fig
  let fig := if "bollinger" ∈ indicators then
      add_bollinger_bands fig data 20 2 1
    else fig
  let st : Except PyErr Figure := .ok fig
  let row0 : ℕ := 1
  let row1 := if "rsi" ∈ indicators then row0 + 1 else row0
  let st := if "rsi" ∈ indicators then st.bind fun f => add_rsi f data 14 row1 else st
  let row2 := if "macd" ∈ indicators then row1 + 1 else row1
  let st := if "macd" ∈ indicators then st.map fun f => add_macd f data 12 26 9 row2 else st
  let row3 := if "stoch" ∈ indicators then row2 + 1 else row2
  let st := if "stoch" ∈ indicators then st.bind fun f => add_stochastic f data 14 3 3 row3 else st
  let row4 := if "atr" ∈ indicators then row3 + 1 else row3
  let st := if "atr" ∈ indicators then st.map fun f => add_atr f data 14 row4 else st
  let row5 := if "obv" ∈ indicators then row4 + 1 else row4
  let st := if "obv" ∈ indicators then st.bind fun f => add_obv f data row5 else st
  st

/-! ### Evaluation lemmas for `FVal` arithmetic -/

@[simp] lemma fadd_fin (a b : ℚ) : fadd (fin a) (fin b) = fin (a + b) := rfl

@[simp] lemma fneg_fin (a : ℚ) : fneg (fin a) = fin (-a) := rfl

@[simp] lemma fneg_nan : fneg nan = nan := rfl

@[simp] lemma fsub_fin (a b : ℚ) : fsub (fin a) (fin b) = fin (a - b) := by
  simp [FVal.fsub, sub_eq_add_neg]

@[simp] lemma fsub_nan_right (x : FVal) : fsub x nan = nan := by cases x <;> rfl

@[simp] lemma fsub_nan_left (x : FVal) : fsub nan x = nan := by cases x <;> rfl

@[simp] lemma fmul_fin (a b : ℚ) : fmul (fin a) (fin b) = fin (a * b) := rfl

@[simp] lemma flt_fin (a b : ℚ) : flt (fin a) (fin b) = decide (a < b) := rfl

@[simp] lemma flt_nan_right (x : FVal) : flt x nan = false := by cases x <;> rfl

@[simp] lemma flt_nan_left (x : FVal) : flt nan x = false := by cases x <;> rfl

@[simp] lemma fmax_fin (a b : ℚ) : fmax (fin a) (fin b) = fin (max a b) := rfl

@[simp] lemma fmin_fin (a b : ℚ) : fmin (fin a) (fin b) = fin (min a b) := rfl

@[simp] lemma fadd_nan_left (x : FVal) : fadd nan x = nan := by cases x <;> rfl

@[simp] lemma fadd_nan_right (x : FVal) : fadd x nan = nan := by cases x <;> rfl

@[simp] lemma fmul_nan_left (x : FVal) : fmul nan x = nan := by cases x <;> rfl

@[simp] lemma fmul_nan_right (x : FVal) : fmul x nan = nan := by cases x <;> rfl

@[simp] lemma fdiv_nan_left (x : FVal) : fdiv nan x = nan := by cases x <;> rfl

@[simp] lemma fdiv_nan_right (x : FVal) : fdiv x nan = nan := by cases x <;> rfl

@[simp] lemma fdiv_fin (a b : ℚ) (hb : b ≠ 0) : fdiv (fin a) (fin b) = fin (a / b) := by
  simp [FVal.fdiv, hb]

/-! ### Concrete sample data and name-normalization helpers -/

/-- A small two-bar sample series. -/
def sampleBars : List Bar :=
  [⟨100, 101, 99, 100, 10⟩, ⟨100, 102, 99, 101, 12⟩]

/-- Fifteen identical bars: a perfectly flat price series. -/
def flatBars : List Bar :=
  [⟨100, 101, 99, 100, 10⟩, ⟨100, 101, 99, 100, 10⟩, ⟨100, 101, 99, 100, 10⟩,
   ⟨100, 101, 99, 100, 10⟩, ⟨100, 101, 99, 100, 10⟩, ⟨100, 101, 99, 100, 10⟩,
   ⟨100, 101, 99, 100, 10⟩, ⟨100, 101, 99, 100, 10⟩, ⟨100, 101, 99, 100, 10⟩,
   ⟨100, 101, 99, 100, 10⟩, ⟨100, 101, 99, 100, 10⟩, ⟨100, 101, 99, 100, 10⟩,
   ⟨100, 101, 99, 100, 10⟩, ⟨100, 101, 99, 100, 10⟩, ⟨100, 101, 99, 100, 10⟩]

/-- Three bars with strictly rising closes. -/
def risingBars : List Bar :=
  [⟨1, 2, 0, 1, 5⟩, ⟨2, 3, 1, 2, 6⟩, ⟨3, 4, 2, 3, 7⟩]

lemma name_rsi14 : "RSI (" ++ toString (14 : ℕ) ++ ")" = "RSI (14)" := rfl

lemma name_atr14 : "ATR (" ++ toString (14 : ℕ) ++ ")" = "ATR (14)" := rfl

lemma name_ma20 : toString (20 : ℕ) ++ "-day MA" = "20-day MA" := rfl

lemma name_ma50 : toString (50 : ℕ) ++ "-day MA" = "50-day MA" := rfl

lemma name_ma200 : toString (200 : ℕ) ++ "-day MA" = "200-day MA" := rfl

lemma name_ema20 : toString (20 : ℕ) ++ "-day EMA" = "20-day EMA" := rfl

/-! ### C8 — the OBV recurrence -/

/-- C8: for every non-empty series the OBV output starts at 0 and obeys
the monotonic-direction recurrence: a rising close adds the bar's volume,
a falling close subtracts it, an equal close leaves OBV unchanged. -/
theorem obv_recurrence (b0 : Bar) (bs : List Bar) :
    ∃ l, calculate_on_balance_volume (b0 :: bs) = .ok l ∧
      l[0]? = some 0 ∧
      ∀ i p, i + 1 < (b0 :: bs).length → l[i]? = some p →
        l[i + 1]? = some
          (if ((b0 :: bs).getD i default).close < ((b0 :: bs).getD (i + 1) default).close then
            p + ((b0 :: bs).getD (i + 1) default).volume
          else if ((b0 :: bs).getD (i + 1) default).close < ((b0 :: bs).getD i default).close then
            p - ((b0 :: bs).getD (i + 1) default).volume
          else p) := by
  refine ⟨(List.range (b0 :: bs).length).map (obv_at (b0 :: bs)), rfl, ?_, ?_⟩
  · rw [List.getElem?_map, List.getElem?_range (by simp)]
    rfl
  · intro i p hi hp
    rw [List.getElem?_map, List.getElem?_range (by omega)] at hp
    rw [List.getElem?_map, List.getElem?_range hi]
    obtain rfl : obv_at (b0 :: bs) i = p := by simpa using hp
    simp only [Option.map_some', Option.some.injEq]
    rw [obv_at]

/-- Witness for C8 at the concrete three-bar rising series. -/
theorem obv_recurrence_witness :
    ∃ l, calculate_on_balance_volume risingBars = .ok l ∧
      l[0]? = some 0 ∧ l[1]? = some 6 := by
  obtain ⟨l, hok, h0, hstep⟩ :=
    obv_recurrence ⟨1, 2, 0, 1, 5⟩ [⟨2, 3, 1, 2, 6⟩, ⟨3, 4, 2, 3, 7⟩]
  have h1 := hstep 0 0 (by norm_num) h0
  refine ⟨l, hok, h0, ?_⟩
  norm_num [List.getD] at h1
  exact h1

/-! ### C4 — RSI division-by-zero handling -/

/-- C4 (amended): wherever the rolling average loss is exactly 0 and the
rolling average gain is positive, the RSI saturates to exactly 100
(`RS = +inf`, `100/(1+inf) = 0`). -/
theorem rsi_zero_loss_saturates (data : List Bar) (window i : ℕ) (g : ℚ)
    (hg : (rsi_avg_gain data window)[i]? = some (FVal.fin g))
    (hl : (rsi_avg_loss data window)[i]? = some (FVal.fin 0))
    (hpos : 0 < g) :
    (calculate_rsi data window)[i]? = some (FVal.fin 100) := by
  unfold calculate_rsi
  rw [List.getElem?_map, List.getElem?_zipWith', hg, hl]
  norm_num [FVal.fdiv, FVal.fadd, FVal.fsub, FVal.fneg, hpos]

/-- Witness for C4 on the rising three-bar series with window 2 at
index 1: average gain `1/2 > 0`, average loss `0`, RSI exactly 100. -/
theorem rsi_zero_loss_saturates_witness :
    (0 : ℚ) < 1 / 2 ∧ (calculate_rsi risingBars 2)[1]? = some (FVal.fin 100) :=
  ⟨by norm_num,
    rsi_zero_loss_saturates risingBars 2 1 (1 / 2)
      (by norm_num [rsi_avg_gain, rolling_mean, windowSlice, fsum, rsi_gain, rsi_delta,
        series_diff, closes, risingBars, List.getElem?_map, List.range_succ, List.getD])
      (by norm_num [rsi_avg_loss, rolling_mean, windowSlice, fsum, rsi_loss, rsi_delta,
        series_diff, closes, risingBars, List.getElem?_map, List.range_succ, List.getD])
      (by norm_num)⟩

/-- Counterexample to C4 as stated: on a perfectly flat series the
average loss is 0 at index 13 (window 14) and the average gain is also 0,
so `RS = 0/0 = NaN` and the RSI is NaN there — it does not saturate
to 100. -/
theorem rsi_flat_series_nan :
    (rsi_avg_loss flatBars 14)[13]? = some (FVal.fin 0) ∧
    (rsi_avg_gain flatBars 14)[13]? = some (FVal.fin 0) ∧
    (calculate_rsi flatBars 14)[13]? = some FVal.nan := by
  refine ⟨?_, ?_, ?_⟩ <;>
    norm_num [calculate_rsi, rsi_avg_gain, rsi_avg_loss, rolling_mean, windowSlice, fsum,
      rsi_gain, rsi_loss, rsi_delta, series_diff, closes, flatBars, List.getElem?_map,
      List.getElem?_zipWith', List.range_succ, List.getD, FVal.fdiv]

/-! ### C3 — the 30-bar scenario -/

/-- Modelled from the spec: the 30-bar scenario Series with
`Close = [100, 101, 99, 102, ...]`.  The spec calls the closes a "fixed
literal sequence" but only reproduces its first four values; it is
concretized here by continuing the same `+1, -2, +3` delta pattern. -/
def scenarioCloses : List ℚ :=
  [100, 101, 99, 102, 103, 101, 104, 105, 103, 106,
   107, 105, 108, 109, 107, 110, 111, 109, 112, 113,
   111, 114, 115, 113, 116, 117, 115, 118, 119, 117]

/-- The scenario bars built from `scenarioCloses` (`High = Close + 1`,
`Low = Close - 1`, `Volume = 1000`; RSI reads only the closes). -/
def scenarioBars : List Bar :=
  scenarioCloses.map fun c => ⟨c, c + 1, c - 1, c, 1000⟩

/-- Modelled from the spec: the manual RSI gain/loss computation —
close-to-close deltas over the trailing window (the first bar of the
series, having no predecessor, contributes zero), window-mean of the
gains and of the losses, `RS = avgGain/avgLoss`,
`RSI = 100 - 100/(1+RS)` — as one scalar formula over exact rationals. -/
def manual_rsi (cs : List ℚ) (window i : ℕ) : ℚ :=
  let delta := fun j : ℕ => if j = 0 then 0 else cs.getD j 0 - cs.getD (j - 1) 0
  let idxs := (List.range window).map fun j => i + 1 - window + j
  let avgGain := (idxs.map fun j => max (delta j) 0).sum / window
  let avgLoss := (idxs.map fun j => max (-delta j) 0).sum / window
  100 - 100 / (1 + avgGain / avgLoss)

/-- C3: on the 30-bar scenario series, RSI(14) at index 13 is defined
(a finite value, not NaN) and coincides with the independent manual
gain/loss computation over the same closes (both equal exactly 68). -/
theorem rsi_scenario_manual :
    (calculate_rsi scenarioBars 14)[13]? = some (FVal.fin (manual_rsi scenarioCloses 14 13)) ∧
    manual_rsi scenarioCloses 14 13 = 68 := by
  have hman : manual_rsi scenarioCloses 14 13 = 68 := by
    norm_num [manual_rsi, scenarioCloses, List.range_succ, List.getD]
  refine ⟨?_, hman⟩
  rw [hman]
  norm_num [calculate_rsi, rsi_avg_gain, rsi_avg_loss, rolling_mean, windowSlice, fsum,
    rsi_gain, rsi_loss, rsi_delta, series_diff, closes, scenarioBars, scenarioCloses,
    List.getElem?_map, List.getElem?_zipWith', List.range_succ, List.getD, FVal.fdiv]

/-! ### C6 — panel height weights -/

/-- C6: for every request, the normalized panel height weights sum to 1,
panel 0 gets weight 1/2 with the other 1/2 split evenly across the
oscillator panels (the full height when there is no oscillator panel),
and panel 0's weight is never less than the combined weight of all other
panels. -/
theorem panel_height_weights (inds : List String) :
    normalize_heights (chart_heights (chart_subplot_count inds)) =
      (if chart_subplot_count inds = 1 then [1]
       else (1 / 2) ::
         List.replicate (chart_subplot_count inds - 1)
           ((1 / 2) / ((chart_subplot_count inds : ℚ) - 1))) ∧
    (normalize_heights (chart_heights (chart_subplot_count inds))).sum = 1 ∧
    ((normalize_heights (chart_heights (chart_subplot_count inds))).drop 1).sum ≤
      (normalize_heights (chart_heights (chart_subplot_count inds))).headI := by
  set n := chart_subplot_count inds with hn
  have h1 : 1 ≤ n := by rw [hn]; unfold chart_subplot_count; omega
  rcases eq_or_lt_of_le h1 with h | h
  · rw [← h]
    norm_num [chart_heights, normalize_heights]
  · have hne : n ≠ 1 := by omega
    have hc2 : (2 : ℚ) ≤ (n : ℚ) := by exact_mod_cast h
    have hcast : ((n : ℚ) - 1) ≠ 0 := by linarith
    have hrepl : ((n - 1 : ℕ) : ℚ) = (n : ℚ) - 1 := by
      rw [Nat.cast_sub h1]; norm_num
    have htail : (List.replicate (n - 1) ((1 / 2 : ℚ) / ((n : ℚ) - 1))).sum = 1 / 2 := by
      rw [List.sum_replicate, nsmul_eq_mul, hrepl, mul_div_cancel₀ _ hcast]
    have hsum : (chart_heights n).sum = 1 := by
      rw [chart_heights, if_pos h, List.sum_cons, htail]
      norm_num
    have hnorm : normalize_heights (chart_heights n) = chart_heights n := by
      rw [normalize_heights, hsum]
      simp
    rw [hnorm, if_neg hne]
    refine ⟨by rw [chart_heights, if_pos h], hsum, ?_⟩
    rw [chart_heights, if_pos h]
    simp only [List.drop_succ_cons, List.drop_zero, List.headI_cons]
    rw [htail]

/-! ### Length lemmas -/

@[simp] lemma rolling_mean_length (xs : List FVal) (w : ℕ) :
    (rolling_mean xs w).length = xs.length := by simp [rolling_mean]

@[simp] lemma rolling_min_length (xs : List FVal) (w : ℕ) :
    (rolling_min xs w).length = xs.length := by simp [rolling_min]

@[simp] lemma rolling_max_length (xs : List FVal) (w : ℕ) :
    (rolling_max xs w).length = xs.length := by simp [rolling_max]

@[simp] lemma rolling_var_length (xs : List FVal) (w : ℕ) :
    (rolling_var xs w).length = xs.length := by simp [rolling_var]

@[simp] lemma rolling_std_length (xs : List FVal) (w : ℕ) :
    (rolling_std xs w).length = xs.length := by simp [rolling_std]

@[simp] lemma ewm_go_length (a : ℚ) (y : FVal) (l : List FVal) :
    (ewm_go a y l).length = l.length := by
  induction l generalizing y with
  | nil => rfl
  | cons x xs ih => simp [ewm_go, ih]

@[simp] lemma ewm_mean_length (xs : List FVal) (span : ℕ) :
    (ewm_mean xs span).length = xs.length := by
  cases xs <;> simp [ewm_mean]

@[simp] lemma closes_length (data : List Bar) : (closes data).length = data.length := by
  simp [closes]

@[simp] lemma highs_length (data : List Bar) : (highs data).length = data.length := by
  simp [highs]

@[simp] lemma lows_length (data : List Bar) : (lows data).length = data.length := by
  simp [lows]

@[simp] lemma series_diff_length (xs : List FVal) :
    (series_diff xs).length = xs.length := by simp [series_diff]

@[simp] lemma true_range_length (data : List Bar) :
    (true_range data).length = data.length := by simp [true_range]

@[simp] lemma rsi_delta_length (data : List Bar) :
    (rsi_delta data).length = data.length := by simp [rsi_delta]

@[simp] lemma rsi_gain_length (data : List Bar) :
    (rsi_gain data).length = data.length := by simp [rsi_gain]

@[simp] lemma rsi_loss_length (data : List Bar) :
    (rsi_loss data).length = data.length := by simp [rsi_loss]

@[simp] lemma rsi_avg_gain_length (data : List Bar) (w : ℕ) :
    (rsi_avg_gain data w).length = data.length := by simp [rsi_avg_gain]

@[simp] lemma rsi_avg_loss_length (data : List Bar) (w : ℕ) :
    (rsi_avg_loss data w).length = data.length := by simp [rsi_avg_loss]

@[simp] lemma stoch_low_min_length (data : List Bar) (k : ℕ) :
    (stoch_low_min data k).length = data.length := by simp [stoch_low_min]

@[simp] lemma stoch_high_max_length (data : List Bar) (k : ℕ) :
    (stoch_high_max data k).length = data.length := by simp [stoch_high_max]

@[simp] lemma stochastic_fast_k_length (data : List Bar) (k : ℕ) :
    (stochastic_fast_k data k).length = data.length := by
  simp [stochastic_fast_k]

@[simp] lemma bollinger_middle_length (data : List Bar) (w : ℕ) :
    (bollinger_middle data w).length = data.length := by simp [bollinger_middle]

/-! ### C7 — output/input alignment -/

/-- C7: over any non-empty series, every output sequence of every
indicator calculator — for every parameter choice — has exactly the
length of the input series; and the not-yet-computable leading entries of
a rolling mean are present as NaN rather than dropped. -/
theorem output_alignment (b0 : Bar) (bs : List Bar) (w span fast slow sig kp dp sk : ℕ)
    (nstd : ℚ) :
    (rolling_mean (closes (b0 :: bs)) w).length = (b0 :: bs).length ∧
    (ewm_mean (closes (b0 :: bs)) span).length = (b0 :: bs).length ∧
    (bollinger_middle (b0 :: bs) w).length = (b0 :: bs).length ∧
    (bollinger_upper (b0 :: bs) w nstd).length = (b0 :: bs).length ∧
    (bollinger_lower (b0 :: bs) w nstd).length = (b0 :: bs).length ∧
    (calculate_rsi (b0 :: bs) w).length = (b0 :: bs).length ∧
    (calculate_macd (b0 :: bs) fast slow sig).1.length = (b0 :: bs).length ∧
    (calculate_macd (b0 :: bs) fast slow sig).2.1.length = (b0 :: bs).length ∧
    (calculate_macd (b0 :: bs) fast slow sig).2.2.length = (b0 :: bs).length ∧
    (calculate_stochastic (b0 :: bs) kp dp sk).1.length = (b0 :: bs).length ∧
    (calculate_stochastic (b0 :: bs) kp dp sk).2.length = (b0 :: bs).length ∧
    (calculate_atr (b0 :: bs) w).length = (b0 :: bs).length ∧
    (∃ l, calculate_on_balance_volume (b0 :: bs) = .ok l ∧ l.length = (b0 :: bs).length) ∧
    (∀ i, i < (b0 :: bs).length → i + 1 < w →
      (rolling_mean (closes (b0 :: bs)) w)[i]? = some FVal.nan) := by
  refine ⟨by simp, by simp, by simp [bollinger_middle], by simp [bollinger_upper],
    by simp [bollinger_lower], by simp [calculate_rsi], by simp [calculate_macd],
    by simp [calculate_macd], by simp [calculate_macd], by simp [calculate_stochastic],
    by simp [calculate_stochastic], by simp [calculate_atr],
    ⟨(List.range (b0 :: bs).length).map (obv_at (b0 :: bs)), rfl, by simp⟩, ?_⟩
  intro i hi hw
  unfold rolling_mean
  rw [List.getElem?_map, List.getElem?_range (by simpa using hi)]
  simp [hw]

/-- Witness for C7 at the three-bar rising series, window 2. -/
theorem output_alignment_witness :
    (calculate_rsi risingBars 2).length = 3 ∧
    (rolling_mean (closes risingBars) 2)[0]? = some FVal.nan := by
  obtain ⟨-, -, -, -, -, hrsi, -, -, -, -, -, -, -, hnan⟩ :=
    output_alignment ⟨1, 2, 0, 1, 5⟩ [⟨2, 3, 1, 2, 6⟩, ⟨3, 4, 2, 3, 7⟩] 2 2 2 2 2 2 2 2 2
  exact ⟨hrsi, hnan 0 (by norm_num) (by norm_num)⟩

/-! ### Window and fold helpers for the stochastic oscillator -/

lemma windowSlice_map {α β : Type _} (f : α → β) (l : List α) (w i : ℕ) :
    windowSlice (l.map f) w i = (windowSlice l w i).map f := by
  simp [windowSlice, List.map_take, List.map_drop]

lemma windowSlice_length {α : Type _} (l : List α) (w i : ℕ) (hi : i < l.length)
    (hw : w ≤ i + 1) : (windowSlice l w i).length = w := by
  simp only [windowSlice, List.length_drop, List.length_take]
  omega

lemma self_mem_windowSlice {α : Type _} (l : List α) (w i : ℕ) (hw : 0 < w)
    (hi : i < l.length) : l.get ⟨i, hi⟩ ∈ windowSlice l w i := by
  have key : (windowSlice l w i)[i - (i + 1 - w)]? = some (l.get ⟨i, hi⟩) := by
    simp only [windowSlice, List.getElem?_drop, List.getElem?_take]
    rw [show (i + 1 - w) + (i - (i + 1 - w)) = i by omega]
    simp [hi, List.getElem?_eq_getElem hi]
  exact List.getElem?_mem key

lemma le_foldl_max (xs : List ℚ) (a : ℚ) : a ≤ xs.foldl max a := by
  induction xs generalizing a with
  | nil => exact le_refl a
  | cons x xs ih => exact le_trans (le_max_left a x) (ih (max a x))

lemma mem_le_foldl_max (xs : List ℚ) (a x : ℚ) (h : x ∈ xs) : x ≤ xs.foldl max a := by
  induction xs generalizing a with
  | nil => cases h
  | cons y ys ih =>
    simp only [List.foldl_cons]
    rcases List.mem_cons.mp h with rfl | h'
    · exact le_trans (le_max_right a x) (le_foldl_max ys (max a x))
    · exact ih (max a y) h'

lemma foldl_min_le (xs : List ℚ) (a : ℚ) : xs.foldl min a ≤ a := by
  induction xs generalizing a with
  | nil => exact le_refl a
  | cons x xs ih => exact le_trans (ih (min a x)) (min_le_left a x)

lemma foldl_min_le_mem (xs : List ℚ) (a x : ℚ) (h : x ∈ xs) : xs.foldl min a ≤ x := by
  induction xs generalizing a with
  | nil => cases h
  | cons y ys ih =>
    simp only [List.foldl_cons]
    rcases List.mem_cons.mp h with rfl | h'
    · exact le_trans (foldl_min_le ys (min a x)) (min_le_right a x)
    · exact ih (min a y) h'

lemma foldl_fmax_map_fin (xs : List ℚ) (a : ℚ) :
    (xs.map fin).foldl fmax (fin a) = fin (xs.foldl max a) := by
  induction xs generalizing a with
  | nil => rfl
  | cons x xs ih =>
    simp only [List.map_cons, List.foldl_cons, fmax_fin]
    exact ih (max a x)

lemma foldl_fmin_map_fin (xs : List ℚ) (a : ℚ) :
    (xs.map fin).foldl fmin (fin a) = fin (xs.foldl min a) := by
  induction xs generalizing a with
  | nil => rfl
  | cons x xs ih =>
    simp only [List.map_cons, List.foldl_cons, fmin_fin]
    exact ih (min a x)

lemma fvalListMax_fin (x : ℚ) (xs : List ℚ) :
    fvalListMax ((x :: xs).map fin) = fin (xs.foldl max x) := by
  simp only [List.map_cons, fvalListMax]
  exact foldl_fmax_map_fin xs x

lemma fvalListMin_fin (x : ℚ) (xs : List ℚ) :
    fvalListMin ((x :: xs).map fin) = fin (xs.foldl min x) := by
  simp only [List.map_cons, fvalListMin]
  exact foldl_fmin_map_fin xs x

/-! ### C5 — stochastic oscillator on a flat range -/

/-- C5: whenever bars satisfy `Low ≤ Close ≤ High` and the `k`-period
highest high equals the `k`-period lowest low at an index, the fast %K of
the stochastic oscillator is NaN there (the `0/0` of the flat range), not
a fault and not an infinity. -/
theorem stochastic_flat_range_nan (data : List Bar) (k_period i : ℕ) (hk : 0 < k_period)
    (hlc : ∀ b ∈ data, b.low ≤ b.close ∧ b.close ≤ b.high) (v : FVal)
    (hmax : (stoch_high_max data k_period)[i]? = some v)
    (hmin : (stoch_low_min data k_period)[i]? = some v) :
    (stochastic_fast_k data k_period)[i]? = some FVal.nan := by
  have hlen : i < data.length := by
    obtain ⟨hlt, -⟩ := List.getElem?_eq_some.mp hmax
    simpa using hlt
  have hc : (closes data)[i]? = some (fin (data.get ⟨i, hlen⟩).close) := by
    rw [closes, List.getElem?_map, List.getElem?_eq_getElem hlen]
    rfl
  have hnum : (List.zipWith fsub (closes data) (stoch_low_min data k_period))[i]? =
      some (fsub (fin (data.get ⟨i, hlen⟩).close) v) := by
    rw [List.getElem?_zipWith', hc, hmin]
    rfl
  have hden : (List.zipWith fsub (stoch_high_max data k_period) (stoch_low_min data k_period))[i]? =
      some (fsub v v) := by
    rw [List.getElem?_zipWith', hmax, hmin]
    rfl
  unfold stochastic_fast_k
  rw [List.getElem?_map, List.getElem?_zipWith', hnum, hden]
  cases v with
  | nan => simp
  | pinf => simp [FVal.fsub, FVal.fadd, FVal.fneg, FVal.fdiv]
  | ninf => simp [FVal.fsub, FVal.fadd, FVal.fneg, FVal.fdiv]
  | fin m =>
    unfold stoch_high_max rolling_max at hmax
    rw [List.getElem?_map, List.getElem?_range (by simpa using hlen)] at hmax
    unfold stoch_low_min rolling_min at hmin
    rw [List.getElem?_map, List.getElem?_range (by simpa using hlen)] at hmin
    simp only [Option.map_some'] at hmax hmin
    by_cases hik : i + 1 < k_period
    · rw [if_pos hik] at hmax
      exact absurd (Option.some.inj hmax) (by simp)
    · push_neg at hik
      rw [if_neg (by omega : ¬ i + 1 < k_period)] at hmax
      rw [if_neg (by omega : ¬ i + 1 < k_period)] at hmin
      replace hmax := Option.some.inj hmax
      replace hmin := Option.some.inj hmin
      have hslen : (windowSlice data k_period i).length = k_period :=
        windowSlice_length data k_period i hlen hik
      have hsne : windowSlice data k_period i ≠ [] := by
        intro h
        rw [h] at hslen
        simp at hslen
        omega
      obtain ⟨d0, ds, hcons⟩ := List.exists_cons_of_ne_nil hsne
      have hh : windowSlice (highs data) k_period i =
          ((d0 :: ds).map (fun b => b.high)).map fin := by
        rw [highs, windowSlice_map, hcons, List.map_map]
        rfl
      have hl : windowSlice (lows data) k_period i =
          ((d0 :: ds).map (fun b => b.low)).map fin := by
        rw [lows, windowSlice_map, hcons, List.map_map]
        rfl
      rw [hh, List.map_cons, fvalListMax_fin] at hmax
      rw [hl, List.map_cons, fvalListMin_fin] at hmin
      have hM : (ds.map fun b => b.high).foldl max d0.high = m := by
        simpa using hmax
      have hL : (ds.map fun b => b.low).foldl min d0.low = m := by
        simpa using hmin
      have hmem : data.get ⟨i, hlen⟩ ∈ d0 :: ds := by
        rw [← hcons]
        exact self_mem_windowSlice data k_period i hk hlen
      have hbH : (data.get ⟨i, hlen⟩).high ≤ m := by
        rw [← hM]
        rcases List.mem_cons.mp hmem with h' | h'
        · rw [h']
          exact le_foldl_max _ _
        · exact mem_le_foldl_max _ _ _ (List.mem_map_of_mem _ h')
      have hbL : m ≤ (data.get ⟨i, hlen⟩).low := by
        rw [← hL]
        rcases List.mem_cons.mp hmem with h' | h'
        · rw [h']
          exact foldl_min_le _ _
        · exact foldl_min_le_mem _ _ _ (List.mem_map_of_mem _ h')
      obtain ⟨hlo, hhi⟩ := hlc (data.get ⟨i, hlen⟩) (List.get_mem data i hlen)
      have hcm : (data.get ⟨i, hlen⟩).close = m :=
        le_antisymm (hhi.trans hbH) (hbL.trans hlo)
      rw [hcm]
      simp [FVal.fdiv]

/-- Two bars whose prices are all the same value: a flat range. -/
def flatRangeBars : List Bar := [⟨5, 5, 5, 5, 1⟩, ⟨5, 5, 5, 5, 1⟩]

/-- Witness for C5 on the flat two-bar series with `k = 2` at index 1. -/
theorem stochastic_flat_range_nan_witness :
    (stochastic_fast_k flatRangeBars 2)[1]? = some FVal.nan :=
  stochastic_flat_range_nan flatRangeBars 2 1 (by norm_num)
    (by intro b hb; fin_cases hb <;> norm_num) (fin 5)
    (by norm_num [stoch_high_max, rolling_max, fvalListMax, windowSlice, highs,
      flatRangeBars, List.getElem?_map, List.range_succ])
    (by norm_num [stoch_low_min, rolling_min, fvalListMin, windowSlice, lows,
      flatRangeBars, List.getElem?_map, List.range_succ])

/-! ### C9 — Bollinger band ordering -/

/-- C9: for every series, window and non-negative band multiplier, at
every index where middle, upper and lower bands are all defined,
`lower ≤ middle ≤ upper` (the band offset is `k` times a square root,
hence non-negative). -/
theorem bollinger_band_ordering (data : List Bar) (w : ℕ) (k : ℚ) (hk : 0 ≤ k) (i : ℕ)
    (m : ℚ) (u l : ℝ)
    (hm : (bollinger_middle data w)[i]? = some (FVal.fin m))
    (hu : (bollinger_upper data w k)[i]? = some (some u))
    (hl : (bollinger_lower data w k)[i]? = some (some l)) :
    l ≤ (m : ℝ) ∧ (m : ℝ) ≤ u := by
  unfold bollinger_upper at hu
  unfold bollinger_lower at hl
  rw [List.getElem?_zipWith', hm] at hu hl
  cases hs : (rolling_std (closes data) w)[i]? with
  | none =>
      rw [hs] at hu
      simp at hu
  | some s =>
      rw [hs] at hu hl
      cases s with
      | none =>
          simp at hu
      | some r =>
          simp only [Option.map_some', Option.some_bind, Option.bind_some,
            Option.some.injEq] at hu hl
          have hr : 0 ≤ r := by
            unfold rolling_std at hs
            rw [List.getElem?_map] at hs
            cases hv : (rolling_var (closes data) w)[i]? with
            | none => rw [hv] at hs; simp at hs
            | some fv =>
                rw [hv] at hs
                simp only [Option.map_some', Option.some.injEq] at hs
                cases fv with
                | fin q =>
                    simp only [fvalSqrt, Option.some.injEq] at hs
                    rw [← hs]
                    exact Real.sqrt_nonneg _
                | nan => simp [fvalSqrt] at hs
                | pinf => simp [fvalSqrt] at hs
                | ninf => simp [fvalSqrt] at hs
          have hrk : 0 ≤ r * (k : ℝ) :=
            mul_nonneg hr (by exact_mod_cast hk)
          constructor
          · rw [← hl]
            linarith
          · rw [← hu]
            linarith

/-- Two bars with closes 0 and 2: window-2 sample variance 2, bands at
distance `2 · sqrt 2` from the middle. -/
def bollBars : List Bar := [⟨0, 1, -1, 0, 1⟩, ⟨2, 3, 1, 2, 1⟩]

/-- Witness for C9 on `bollBars` with window 2, `k = 2`, index 1. -/
theorem bollinger_band_ordering_witness :
    ∃ (m : ℚ) (u l : ℝ),
      (bollinger_middle bollBars 2)[1]? = some (FVal.fin m) ∧
      (bollinger_upper bollBars 2 2)[1]? = some (some u) ∧
      (bollinger_lower bollBars 2 2)[1]? = some (some l) ∧
      l ≤ (m : ℝ) ∧ (m : ℝ) ≤ u := by
  have hm : (bollinger_middle bollBars 2)[1]? = some (FVal.fin 1) := by
    norm_num [bollinger_middle, rolling_mean, windowSlice, fsum, closes, bollBars,
      List.getElem?_map, List.range_succ]
  have hvar : (rolling_var (closes bollBars) 2)[1]? = some (FVal.fin 2) := by
    norm_num [rolling_var, windowSlice, fsum, closes, bollBars,
      List.getElem?_map, List.range_succ]
  have hstd : (rolling_std (closes bollBars) 2)[1]? = some (some (Real.sqrt 2)) := by
    rw [rolling_std, List.getElem?_map, hvar]
    norm_num [fvalSqrt]
  have hu : (bollinger_upper bollBars 2 2)[1]? = some (some ((1 : ℝ) + Real.sqrt 2 * 2)) := by
    rw [bollinger_upper, List.getElem?_zipWith', hm, hstd]
    norm_num
  have hl : (bollinger_lower bollBars 2 2)[1]? = some (some ((1 : ℝ) - Real.sqrt 2 * 2)) := by
    rw [bollinger_lower, List.getElem?_zipWith', hm, hstd]
    norm_num
  exact ⟨1, _, _, hm, hu, hl,
    bollinger_band_ordering bollBars 2 2 (by norm_num) 1 1 _ _ hm hu hl⟩

/-! ### C1 — behaviour on an empty Series -/

/-- Counterexample to C1 as stated: on an empty Series with `obv`
requested, the chart builder does not short-circuit to a placeholder —
the OBV calculator is invoked and its `obv.iloc[0] = 0` seed raises an
`IndexError`, which propagates out of `create_technical_chart`. -/
theorem empty_series_obv_raises :
    create_technical_chart [] (some ["obv"]) = .error .indexError := rfl

/-- C1 (amended): for an empty Series there is no empty-input
short-circuit.  Calculators are still invoked; with the default overlays,
or any request avoiding `rsi`, `stoch` and `obv`, the builder returns an
(empty-trace) figure, but requesting `rsi`, `stoch` or `obv` raises an
`IndexError` from the pandas layer. -/
theorem empty_series_behavior :
    (create_technical_chart [] none).isOk = true ∧
    (create_technical_chart [] (some ["sma", "ema", "bollinger", "macd", "atr"])).isOk = true ∧
    create_technical_chart [] (some ["rsi"]) = .error .indexError ∧
    create_technical_chart [] (some ["stoch"]) = .error .indexError ∧
    create_technical_chart [] (some ["obv"]) = .error .indexError :=
  ⟨rfl, rfl, rfl, rfl, rfl⟩

/-! ### C2 — oscillator panel order -/

/-- Counterexample to C2 as stated: requesting `[macd, rsi]` on a
two-bar series puts the first-requested oscillator (MACD) on panel 2
(subplot row 3) and RSI on panel 1 (row 2) — not the request order. -/
theorem panel_order_counterexample :
    (create_technical_chart sampleBars (some ["macd", "rsi"])).map
      (fun f => (rowsOfTrace f "MACD", rowsOfTrace f "RSI (14)")) = .ok ([3], [2]) ∧
    (([3], [2]) : List ℕ × List ℕ) ≠ ([2], [3]) :=
  ⟨rfl, by decide⟩

/-- C2 (amended): oscillator sub-panels are allocated in the source's
fixed order rsi, macd, stoch, atr, obv among the requested oscillators,
regardless of the order of the request — the figure is identical for any
request order, with RSI on row 2, MACD on 3, Stochastic on 4, ATR on 5
and OBV on 6 when all five are requested. -/
theorem panel_order_amended (b : Bar) (bs : List Bar) :
    create_technical_chart (b :: bs) (some ["obv", "atr", "stoch", "macd", "rsi"]) =
      create_technical_chart (b :: bs) (some ["rsi", "macd", "stoch", "atr", "obv"]) ∧
    (create_technical_chart (b :: bs) (some ["obv", "atr", "stoch", "macd", "rsi"])).map
      (fun f => (rowsOfTrace f "RSI (14)", rowsOfTrace f "MACD", rowsOfTrace f "%K",
        rowsOfTrace f "ATR (14)", rowsOfTrace f "OBV")) =
      .ok ([2], [3], [4], [5], [6]) ∧
    (create_technical_chart (b :: bs) (some ["macd", "rsi"])).map
      (fun f => (rowsOfTrace f "MACD", rowsOfTrace f "RSI (14)")) = .ok ([3], [2]) := by
  refine ⟨rfl, ?_, rfl⟩
  simp [create_technical_chart, add_rsi, add_macd, add_stochastic, add_atr, add_obv,
    add_moving_average, add_exponential_moving_average, add_bollinger_bands,
    calculate_on_balance_volume, make_subplots, Figure.addTrace, rowsOfTrace,
    chart_subplot_count, chart_heights, Except.map, Except.bind, List.filter_append,
    calculate_macd, calculate_stochastic, name_rsi14, name_atr14, name_ma20,
    name_ma50, name_ma200, name_ema20, beq_iff_eq]

/-! ### C10 — default indicator set -/

/-- C10: with no indicator list supplied, `create_technical_chart`
behaves exactly as if `[sma, ema, bollinger]` had been requested: a
single-panel figure whose every trace — the candlestick, volume, the two
SMAs, the EMA and the five Bollinger traces — sits on panel 0
(subplot row 1). -/
theorem default_indicator_overlays (data : List Bar) :
    create_technical_chart data none =
      create_technical_chart data (some ["sma", "ema", "bollinger"]) ∧
    ∃ fig, create_technical_chart data none = .ok fig ∧ fig.rows = 1 ∧
      fig.traces.map (fun t => (t.name, t.row)) =
        [("Price", 1), ("Volume", 1), ("50-day MA", 1), ("200-day MA", 1), ("20-day EMA", 1),
         ("20-day MA", 1), ("Upper Band", 1), ("Lower Band", 1), ("Upper Band", 1),
         ("Lower Band", 1)] :=
  ⟨rfl, _, rfl, rfl, rfl⟩

end StockTracker
